import Mathlib

/-!
Shallow embedding of `chatbot_ui.py` (a lecture question-answering assistant):
the Timestamp Intent Parser (`parse_timestamp_question`), the Transcript
Filter and Retrieval Router (`process_query`), the Answer Composer
(`get_response_from_model`), and the input handler (`handle_user_input`).

External effects (the chat-completion model, Python `eval`, the corpus file,
the HTTP search endpoint, the streaming completion) are passed in as explicit
outcome parameters; Python exceptions that the code does not catch are
modelled with `Except`, and the requests the code issues are returned as a
trace so that theorems can speak about which collaborator was invoked.
-/

namespace Chatbot

/-- A Python value, as far as `parse_timestamp_question`'s validation of the
`eval`-ed model output can observe it. -/
inductive PyVal where
  | pyNone
  | pyInt (n : ℤ)
  | pyFloat (q : ℚ)
  | pyStr (s : String)
  | pyList (xs : List PyVal)
  | pyTuple (xs : List PyVal)

/-- `isinstance(x, (int, float))`. -/
def isNumericVal : PyVal → Bool
  | .pyInt _ => true
  | .pyFloat _ => true
  | _ => false

/-- Python `int()` truncates a float toward zero: the numerator `tdiv` the
denominator is exactly truncation toward zero of the rational value. -/
def truncQ (q : ℚ) : ℤ := q.num.tdiv (q.den : ℤ)

/-- Python `str.lower()`, character by character. -/
def pyLower (s : String) : String := ⟨s.data.map Char.toLower⟩

def isPySpace (c : Char) : Bool := c = ' ' || c = '\t' || c = '\n' || c = '\r'

/-- Python `str.strip()`: drop leading and trailing whitespace. -/
def pyStrip (s : String) : String :=
  ⟨((s.data.dropWhile isPySpace).reverse.dropWhile isPySpace).reverse⟩

/-- Python `int(x)` for the numeric values the validation lets through
(the default branch is unreachable once `isNumericVal` holds). -/
def forceInt : PyVal → ℤ
  | .pyInt n => n
  | .pyFloat q => truncQ q
  | _ => 0

/-- The parser's result `[lecture_number, (start_time_in_seconds,
end_time_in_seconds)]`. -/
structure TimestampIntent where
  lecture_number : ℤ
  start_time : ℤ
  end_time : ℤ
deriving DecidableEq, Repr

/-- Outcome of one call to the chat-completion service: either an exception
(network/service error) or the returned message content. -/
inductive ModelCall where
  | err
  | ok (text : String)

/-- The `isinstance` checks of `parse_timestamp_question` lines 54-61:
a 2-element list whose first element is an `int` and whose second is a
2-element tuple of numbers. -/
def validShape : PyVal → Bool
  | .pyList [.pyInt _, .pyTuple [x, y]] => isNumericVal x && isNumericVal y
  | _ => false

/-- Validation and coercion of the `eval`-ed value (lines 53-64): on a valid
shape return `[result[0], (int(result[1][0]), int(result[1][1]))]`, else
`None`. -/
def validateResult : PyVal → Option TimestampIntent
  | .pyList [.pyInt n, .pyTuple [x, y]] =>
      if isNumericVal x && isNumericVal y then
        some ⟨n, forceInt x, forceInt y⟩
      else
        none
  | _ => none

/-- `parse_timestamp_question` (lines 7-68).  `model` is the outcome of the
chat-completion call on the question, `evalFn` the behaviour of Python
`eval` on the stripped response text (`.error` = the `eval` raised).  Both
`try` blocks turn any exception into `None`. -/
def parse_timestamp_question (question : String) (model : String → ModelCall)
    (evalFn : String → Except Unit PyVal) : Option TimestampIntent :=
  match model question with
  | .err => none
  | .ok text =>
      let response_text := pyStrip text
      if pyLower response_text = "none" then none
      else
        match evalFn response_text with
        | .error _ => none
        | .ok v => validateResult v

/-- `block_metadata` of a corpus record; either stored time may be absent. -/
structure BlockMetadata where
  start_time : Option ℤ
  end_time : Option ℤ
deriving DecidableEq, Repr

/-- One line of the corpus file.  `document_title` and `block_metadata` are
looked up with `.get`, so either may be absent; the remaining fields are
opaque content. -/
structure Entry where
  document_title : Option String
  block_metadata : Option BlockMetadata
  content : String
deriving DecidableEq, Repr

/-- `block_metadata.get("start_time", 0)` after
`entry.get("block_metadata", {})`. -/
def blockStart (e : Entry) : ℤ :=
  match e.block_metadata with
  | none => 0
  | some m => m.start_time.getD 0

/-- `block_metadata.get("end_time", 0)` after
`entry.get("block_metadata", {})`. -/
def blockEnd (e : Entry) : ℤ :=
  match e.block_metadata with
  | none => 0
  | some m => m.end_time.getD 0

/-- `f"Lecture {lecture_number}"`. -/
def lectureLabel (n : ℤ) : String := "Lecture " ++ toString n

/-- The loop of lines 93-100: keep, in file order, the entries whose
`document_title` equals `f"Lecture {L}"` and whose stored interval satisfies
`block_start <= end_time and block_end >= start_time`. -/
def filterEntries (L s e : ℤ) (data : List Entry) : List Entry :=
  data.filter fun ent =>
    ent.document_title = some (lectureLabel L) ∧
    blockStart ent ≤ e ∧ s ≤ blockEnd ent

/-- Outcome of opening and decoding the corpus file: `FileNotFoundError`,
a `json.JSONDecodeError` on some line, or the decoded records. -/
inductive CorpusOutcome where
  | notFound
  | malformed
  | ok (entries : List Entry)

/-- The raw JSON payload of a search response, opaque to the core except for
its rendering and its Python truthiness. -/
structure Payload where
  text : String
  truthy : Bool
deriving DecidableEq, Repr

/-- What `process_query` returns when it returns: the filtered entries
(timestamp path), the search payload (semantic path), or Python `None`
(failure). -/
inductive PQResult where
  | blocks (entries : List Entry)
  | payload (p : Payload)
  | failure
deriving DecidableEq, Repr

/-- The POST body of lines 114-119. -/
structure SearchRequest where
  query : List String
  rerank : Bool
  num_blocks_to_rerank : ℕ
  num_blocks : ℕ
deriving DecidableEq, Repr

/-- Outcome of `requests.post`: a transport/network exception, or a response
with a status code and JSON body. -/
inductive SearchOutcome where
  | transportError
  | response (status : ℕ) (body : Payload)

/-- One invocation of the transcript-filtering loop, recorded with the
arguments it was run with. -/
structure FilterCall where
  lecture_number : ℤ
  start_time : ℤ
  end_time : ℤ
deriving DecidableEq, Repr

/-- The external calls one `process_query` run issues. -/
structure PQTrace where
  filterCalls : List FilterCall
  searchCalls : List SearchRequest
deriving DecidableEq, Repr

/-- Lines 89-109: the timestamp branch of `process_query`.  The corpus is
re-read on every call; `FileNotFoundError` and `json.JSONDecodeError` are
caught and turned into `None`. -/
def transcript_filter (L s e : ℤ) (corpus : CorpusOutcome) : PQResult :=
  match corpus with
  | .notFound => .failure
  | .malformed => .failure
  | .ok data => .blocks (filterEntries L s e data)

/-- `process_query` (lines 70-127).  Returns the trace of collaborator calls
together with the Python outcome: `.error` when an uncaught exception
escapes (the `requests.post` call is outside any `try`), `.ok` with the
returned value otherwise.  `if timestamp_info:` is the `some` branch: the
parser never returns a falsy non-`None` value. -/
def process_query (compiled_input current_question : String)
    (model : String → ModelCall) (evalFn : String → Except Unit PyVal)
    (corpus : CorpusOutcome) (search : SearchOutcome) :
    PQTrace × Except Unit PQResult :=
  match parse_timestamp_question current_question model evalFn with
  | some ti =>
      (⟨[⟨ti.lecture_number, ti.start_time, ti.end_time⟩], []⟩,
       .ok (transcript_filter ti.lecture_number ti.start_time ti.end_time corpus))
  | none =>
      let req : SearchRequest := ⟨[compiled_input], true, 10, 3⟩
      match search with
      | .transportError => (⟨[], [req]⟩, .error ())
      | .response status body =>
          if status = 200 then (⟨[], [req]⟩, .ok (.payload body))
          else (⟨[], [req]⟩, .ok .failure)

/-- One conversation turn, as stored in `st.session_state.history`. -/
structure Turn where
  question : String
  response : String
deriving DecidableEq, Repr

/-- One role-tagged message sent to the chat-completion service. -/
structure Msg where
  role : String
  content : String
deriving DecidableEq, Repr

/-- The fixed system instruction of `get_response_from_model` (line 138). -/
def professorInstruction : String :=
  "Respond as if you are a professor for a computer science class being asked a question, use the information provided to answer the question. Do not include a header in your response, answer the question directly."

/-- Outcome of the streaming chat-completion call: a service exception, or
the ordered fragments (`chunk.choices[0].delta.content`, possibly `None`). -/
inductive StreamOutcome where
  | svcError
  | chunks (cs : List (Option String))

/-- `get_response_from_model` (lines 133-160).  `data` is the Python value
interpolated into the f-string, modelled by its `str()` rendering.  The
completion call is not inside any `try`, so a service error escapes
(`.error`); otherwise the fragments are concatenated in delivery order with
`chunk.choices[0].delta.content or ""`. -/
def get_response_from_model (history : List Turn) (data : String)
    (current_question : String) (stream : StreamOutcome) :
    List Msg × Except Unit String :=
  let messages : List Msg := [⟨"system", professorInstruction⟩]
  let messages := history.foldl
    (fun ms entry => ms ++ [⟨"user", entry.question⟩, ⟨"assistant", entry.response⟩])
    messages
  let messages := messages ++
    [⟨"user", "Using " ++ data ++ ", please explain " ++ current_question⟩]
  match stream with
  | .svcError => (messages, .error ())
  | .chunks cs =>
      (messages, .ok (cs.foldl (fun response_text c => response_text ++ c.getD "") ""))

/-- `is_homework_related` (lines 129-131). -/
def homework_keywords : List String :=
  ["homework", "assignment", "problem set", "pset", "task", "exercise", "solve", "implement"]

/-- Python `keyword in question`: substring containment. -/
def strContains (question keyword : String) : Bool :=
  decide (keyword.toList <:+: question.toList)

def is_homework_related (question : String) : Bool :=
  homework_keywords.any fun keyword => strContains (pyLower question) (pyLower keyword)

/-- Python truthiness of `process_query`'s returned value, as tested by
`if data:` in `handle_user_input`. -/
def pqTruthy : PQResult → Bool
  | .blocks entries => !entries.isEmpty
  | .payload p => p.truthy
  | .failure => false

/-- The session state `handle_user_input` reads and writes. -/
structure SessionState where
  history : List Turn
  user_input : String
deriving DecidableEq, Repr

/-- How one `handle_user_input` callback ended. -/
inductive HandleOutcome where
  | noInput
  | declined
  | raised
  | failureReported
  | appendedTurn
deriving DecidableEq, Repr

/-- `" ".join([entry["question"] for entry in history]) + " " + user_input`
(line 182). -/
def compiledInput (history : List Turn) (user_input : String) : String :=
  String.intercalate " " (history.map Turn.question) ++ " " ++ user_input

/-- `handle_user_input` (lines 162-194).  `proceedNo` is the honor-code
radio choice; `render` is Python `str()` on the retrieved value; the rest
are the external outcomes threaded to `process_query` and
`get_response_from_model`.  On an uncaught exception (`.raised`) no session
mutation has happened yet, so the state is returned unchanged. -/
def handle_user_input (st : SessionState) (proceedNo : Bool)
    (model : String → ModelCall) (evalFn : String → Except Unit PyVal)
    (corpus : CorpusOutcome) (search : SearchOutcome)
    (render : PQResult → String) (stream : StreamOutcome) :
    SessionState × HandleOutcome :=
  let user_input := st.user_input
  if user_input = "" then (st, .noInput)
  else if is_homework_related user_input && proceedNo then
    ({ st with user_input := "" }, .declined)
  else
    let compiled_input := compiledInput st.history user_input
    match (process_query compiled_input user_input model evalFn corpus search).2 with
    | .error _ => (st, .raised)
    | .ok data =>
        if pqTruthy data then
          match (get_response_from_model st.history (render data) user_input stream).2 with
          | .error _ => (st, .raised)
          | .ok response =>
              (⟨st.history ++ [⟨user_input, response⟩], ""⟩, .appendedTurn)
        else ({ st with user_input := "" }, .failureReported)

/-! ## Spec-side shapes and shared lemmas -/

/-- The spec's message shape for the conversation history: for every prior
turn, in order, a user message with the question then an assistant message
with the response. -/
def turnMsgs : List Turn → List Msg
  | [] => []
  | t :: ts => ⟨"user", t.question⟩ :: ⟨"assistant", t.response⟩ :: turnMsgs ts

/-- The spec's answer shape: in-order concatenation of the fragments, an
absent fragment contributing the empty string. -/
def concatChunks : List (Option String) → String
  | [] => ""
  | c :: cs => c.getD "" ++ concatChunks cs

theorem foldl_turnMsgs (ts : List Turn) (ms : List Msg) :
    ts.foldl
      (fun ms entry => ms ++ [⟨"user", entry.question⟩, ⟨"assistant", entry.response⟩])
      ms = ms ++ turnMsgs ts := by
  induction ts generalizing ms with
  | nil => simp [turnMsgs]
  | cons t ts ih => simp [turnMsgs, ih]

theorem foldl_concatChunks (cs : List (Option String)) (a : String) :
    cs.foldl (fun response_text c => response_text ++ c.getD "") a
      = a ++ concatChunks cs := by
  induction cs generalizing a with
  | nil => simp [concatChunks, String.append_empty]
  | cons c cs ih => simp [concatChunks, ih, String.append_assoc]

theorem validShape_false_validate (v : PyVal) (h : validShape v = false) :
    validateResult v = none := by
  unfold validateResult
  split
  · rename_i n x y
    simp only [validShape] at h
    simp [h]
  · rfl

theorem validate_eq_some (v : PyVal) (ti : TimestampIntent)
    (h : validateResult v = some ti) :
    ∃ x y, v = .pyList [.pyInt ti.lecture_number, .pyTuple [x, y]] ∧
      isNumericVal x = true ∧ isNumericVal y = true ∧
      ti.start_time = forceInt x ∧ ti.end_time = forceInt y := by
  unfold validateResult at h
  split at h
  · rename_i n x y
    split at h
    · rename_i hnum
      rw [Bool.and_eq_true] at hnum
      cases h
      exact ⟨x, y, rfl, hnum.1, hnum.2, rfl, rfl⟩
    · cases h
  · cases h

theorem mem_filterEntries (L s e : ℤ) (data : List Entry) (ent : Entry) :
    ent ∈ filterEntries L s e data ↔
      ent ∈ data ∧ ent.document_title = some (lectureLabel L) ∧
      blockStart ent ≤ e ∧ s ≤ blockEnd ent := by
  simp [filterEntries, List.mem_filter]

/-! ## Claim theorems -/

/-- C1: when the Timestamp Intent Parser returns no intent, `process_query`
issues exactly the semantic-search request built from the compiled
history-plus-question string and runs no transcript filtering; when it
returns an intent, `process_query` runs the transcript filter with that
intent's lecture number and interval, issues no search request, and returns
the filter's result as the final result; and an empty-but-successful filter
result (`blocks []`) is a different value from a failed one (`failure`). -/
theorem router_dispatch (compiled_input current_question : String)
    (model : String → ModelCall) (evalFn : String → Except Unit PyVal)
    (corpus : CorpusOutcome) (search : SearchOutcome) :
    (parse_timestamp_question current_question model evalFn = none →
      (process_query compiled_input current_question model evalFn corpus search).1.filterCalls
          = [] ∧
      (process_query compiled_input current_question model evalFn corpus search).1.searchCalls
          = [⟨[compiled_input], true, 10, 3⟩]) ∧
    (∀ ti, parse_timestamp_question current_question model evalFn = some ti →
      (process_query compiled_input current_question model evalFn corpus search).1.searchCalls
          = [] ∧
      (process_query compiled_input current_question model evalFn corpus search).1.filterCalls
          = [⟨ti.lecture_number, ti.start_time, ti.end_time⟩] ∧
      (process_query compiled_input current_question model evalFn corpus search).2
          = .ok (transcript_filter ti.lecture_number ti.start_time ti.end_time corpus)) ∧
    (PQResult.blocks [] ≠ PQResult.failure) := by
  refine ⟨fun h => ?_, fun ti h => ?_, by simp⟩
  · simp only [process_query, h]
    cases search with
    | transportError => exact ⟨rfl, rfl⟩
    | response status body =>
        by_cases hs : status = 200 <;> simp [hs]
  · simp [process_query, h]

/-- C1 witness: both router branches realized at concrete inputs. -/
theorem router_dispatch_witness :
    (process_query "c" "q" (fun _ => .err) (fun _ => .error ()) (.ok [])
        (.response 200 ⟨"p", true⟩)).1.searchCalls = [⟨["c"], true, 10, 3⟩] ∧
    (process_query "c" "q" (fun _ => .ok "[4, (0, 300)]")
        (fun t => if t = "[4, (0, 300)]" then
            .ok (.pyList [.pyInt 4, .pyTuple [.pyInt 0, .pyInt 300]])
          else .error ())
        (.ok []) (.response 200 ⟨"p", true⟩)).2
      = .ok (transcript_filter 4 0 300 (.ok [])) :=
  ⟨((router_dispatch "c" "q" (fun _ => .err) (fun _ => .error ()) (.ok [])
      (.response 200 ⟨"p", true⟩)).1 (by decide)).2,
   (((router_dispatch "c" "q" (fun _ => .ok "[4, (0, 300)]")
      (fun t => if t = "[4, (0, 300)]" then
          .ok (.pyList [.pyInt 4, .pyTuple [.pyInt 0, .pyInt 300]])
        else .error ())
      (.ok []) (.response 200 ⟨"p", true⟩)).2.1 ⟨4, 0, 300⟩ (by decide)).2).2⟩

/-- C2: the Transcript Filter keeps exactly the corpus records whose
`document_title` equals the exact string `"Lecture L"` and whose interval
satisfies `block_start <= e` and `block_end >= s`; the result is a sublist
of the corpus (corpus order); records with both times stored are kept
exactly under that test on the stored times; records of other lectures are
never included; and the overlap test is inclusive at boundaries, so a
matching block with `start_time = e` (and a well-formed interval, for a
query with `s ≤ e`) is included. -/
theorem transcript_filter_exact (L s e : ℤ) (data : List Entry) :
    (∀ ent, ent ∈ filterEntries L s e data ↔
        ent ∈ data ∧ ent.document_title = some (lectureLabel L) ∧
        blockStart ent ≤ e ∧ s ≤ blockEnd ent) ∧
    (filterEntries L s e data).Sublist data ∧
    (∀ ent ∈ data, ∀ bs be : ℤ,
        ent.block_metadata = some ⟨some bs, some be⟩ →
        (ent ∈ filterEntries L s e data ↔
          ent.document_title = some (lectureLabel L) ∧ bs ≤ e ∧ s ≤ be)) ∧
    (∀ ent, ent.document_title ≠ some (lectureLabel L) →
        ent ∉ filterEntries L s e data) ∧
    (∀ ent ∈ data, ent.document_title = some (lectureLabel L) →
        blockStart ent = e → blockStart ent ≤ blockEnd ent → s ≤ e →
        ent ∈ filterEntries L s e data) := by
  have hmem := mem_filterEntries L s e data
  refine ⟨hmem, List.filter_sublist _, ?_, ?_, ?_⟩
  · intro ent hd bs be hm
    rw [hmem]
    have h1 : blockStart ent = bs := by simp [blockStart, hm]
    have h2 : blockEnd ent = be := by simp [blockEnd, hm]
    rw [h1, h2]
    tauto
  · intro ent ht hin
    exact ht ((hmem ent).mp hin).2.1
  · intro ent hd ht hbs hle hse
    exact (hmem ent).mpr ⟨hd, ht, by omega, by omega⟩

/-- C2 witness: a `"Lecture 4"` block touching the interval boundary
(`start_time = 300 = e`) is included, and a `"Lecture 5"` block overlapping
the interval is excluded. -/
theorem transcript_filter_exact_witness :
    (⟨some "Lecture 4", some ⟨some 300, some 400⟩, "a"⟩ : Entry) ∈
      filterEntries 4 0 300
        [⟨some "Lecture 4", some ⟨some 300, some 400⟩, "a"⟩,
         ⟨some "Lecture 5", some ⟨some 0, some 10⟩, "b"⟩] ∧
    (⟨some "Lecture 5", some ⟨some 0, some 10⟩, "b"⟩ : Entry) ∉
      filterEntries 4 0 300
        [⟨some "Lecture 4", some ⟨some 300, some 400⟩, "a"⟩,
         ⟨some "Lecture 5", some ⟨some 0, some 10⟩, "b"⟩] :=
  ⟨((((transcript_filter_exact 4 0 300 _).2.2.2.2)
      ⟨some "Lecture 4", some ⟨some 300, some 400⟩, "a"⟩ (by decide)
      (by decide) (by decide) (by decide) (by decide))),
   (((transcript_filter_exact 4 0 300 _).2.2.2.1)
      ⟨some "Lecture 5", some ⟨some 0, some 10⟩, "b"⟩ (by decide))⟩

/-- C9: the Transcript Filter is a deterministic pure function of the
lecture number, the interval, and the corpus contents: two calls with
identical arguments over the same corpus yield identical results in
identical order. -/
theorem filter_deterministic (L s e : ℤ) (corpus : CorpusOutcome)
    (r₁ r₂ : PQResult)
    (h₁ : r₁ = transcript_filter L s e corpus)
    (h₂ : r₂ = transcript_filter L s e corpus) : r₁ = r₂ :=
  h₁.trans h₂.symm

/-- C9 witness: two identical concrete filter calls agree. -/
theorem filter_deterministic_witness :
    transcript_filter 4 0 300 (.ok [⟨some "Lecture 4", some ⟨some 0, some 10⟩, "a"⟩])
      = transcript_filter 4 0 300 (.ok [⟨some "Lecture 4", some ⟨some 0, some 10⟩, "a"⟩]) :=
  filter_deterministic 4 0 300 _ _ _ rfl rfl

/-- C10 (implicit): a corpus record whose `block_metadata` is absent, or
lacks `start_time` or `end_time`, has 0 substituted for the missing
value(s); in particular a matching-lecture record with no metadata at all
is included (for a query whose end time is non-negative, as the data model
requires) exactly when the query's start time is `≤ 0`, rather than being
rejected as malformed. -/
theorem missing_metadata_defaults (L s e : ℤ) (data : List Entry) :
    (∀ ent : Entry, ent.block_metadata = none →
        blockStart ent = 0 ∧ blockEnd ent = 0) ∧
    (∀ (ent : Entry) (m : BlockMetadata), ent.block_metadata = some m →
        m.start_time = none → blockStart ent = 0) ∧
    (∀ (ent : Entry) (m : BlockMetadata), ent.block_metadata = some m →
        m.end_time = none → blockEnd ent = 0) ∧
    (∀ ent ∈ data, ent.document_title = some (lectureLabel L) →
        ent.block_metadata = none → 0 ≤ e →
        (ent ∈ filterEntries L s e data ↔ s ≤ 0)) := by
  refine ⟨?_, ?_, ?_, ?_⟩
  · intro ent hm
    simp [blockStart, blockEnd, hm]
  · intro ent m hm hs
    simp [blockStart, hm, hs]
  · intro ent m hm hs
    simp [blockEnd, hm, hs]
  · intro ent hd ht hm he
    have h1 : blockStart ent = 0 := by simp [blockStart, hm]
    have h2 : blockEnd ent = 0 := by simp [blockEnd, hm]
    rw [mem_filterEntries L s e data ent, h1, h2]
    constructor
    · intro h
      exact h.2.2.2
    · intro h
      exact ⟨hd, ht, he, h⟩

/-- C10 witness: a `"Lecture 4"` record with no metadata is included for the
query `(4, 0, 300)`. -/
theorem missing_metadata_defaults_witness :
    (⟨some "Lecture 4", none, "c"⟩ : Entry) ∈
      filterEntries 4 0 300 [⟨some "Lecture 4", none, "c"⟩] :=
  (((missing_metadata_defaults 4 0 300 [⟨some "Lecture 4", none, "c"⟩]).2.2.2
      ⟨some "Lecture 4", none, "c"⟩ (by decide) (by decide) (by decide)
      (by decide)).mpr (by decide))

/-- C3: `parse_timestamp_question` yields `None` on every model/service
error, on every response text on which `eval` raises (free text, partial
structure), and on every evaluated value of the wrong shape (a non-list, a
list of the wrong arity, a non-tuple second element, non-numeric pair
elements); being a total `Option`-valued function of the modelled outcomes,
it never raises to its caller. -/
theorem parse_never_raises (question : String) (model : String → ModelCall)
    (evalFn : String → Except Unit PyVal) :
    (model question = .err →
      parse_timestamp_question question model evalFn = none) ∧
    (∀ text, model question = .ok text →
      evalFn (pyStrip text) = .error () →
      parse_timestamp_question question model evalFn = none) ∧
    (∀ text v, model question = .ok text →
      evalFn (pyStrip text) = .ok v → validShape v = false →
      parse_timestamp_question question model evalFn = none) := by
  refine ⟨fun h => ?_, fun text hm he => ?_, fun text v hm he hs => ?_⟩
  · simp [parse_timestamp_question, h]
  · simp only [parse_timestamp_question, hm]
    by_cases hn : pyLower (pyStrip text) = "none"
    · simp [hn]
    · simp [hn, he]
  · simp only [parse_timestamp_question, hm]
    by_cases hn : pyLower (pyStrip text) = "none"
    · simp [hn]
    · simp [hn, he, validShape_false_validate v hs]

/-- C3 witness: a service error, an `eval` failure on free text, and a
wrong-arity list all yield `None` at concrete inputs. -/
theorem parse_never_raises_witness :
    parse_timestamp_question "q" (fun _ => .err) (fun _ => .error ()) = none ∧
    parse_timestamp_question "q" (fun _ => .ok "I think lecture 4")
      (fun _ => .error ()) = none ∧
    parse_timestamp_question "q" (fun _ => .ok "[4]")
      (fun _ => .ok (.pyList [.pyInt 4])) = none :=
  ⟨(parse_never_raises "q" (fun _ => .err) (fun _ => .error ())).1 rfl,
   (parse_never_raises "q" (fun _ => .ok "I think lecture 4")
      (fun _ => .error ())).2.1 "I think lecture 4" rfl rfl,
   (parse_never_raises "q" (fun _ => .ok "[4]")
      (fun _ => .ok (.pyList [.pyInt 4]))).2.2 "[4]" (.pyList [.pyInt 4])
      rfl rfl (by decide)⟩

/-- C5 counterexample: the claim as stated is false — the validation does
not check signs, so the model text `"[-1, (-5, -3)]"` (which `eval`s to the
list `[-1, (-5, -3)]`) is accepted and returned with a non-positive lecture
number and negative times. -/
theorem parse_sign_unchecked :
    parse_timestamp_question "q" (fun _ => .ok "[-1, (-5, -3)]")
      (fun t => if t = "[-1, (-5, -3)]" then
          .ok (.pyList [.pyInt (-1), .pyTuple [.pyInt (-5), .pyInt (-3)]])
        else .error ())
      = some ⟨-1, -5, -3⟩ ∧
    ¬(0 < (-1 : ℤ)) ∧ ¬(0 ≤ (-5 : ℤ)) := by
  refine ⟨by decide, by decide, by decide⟩

/-- C5 amended: whenever `parse_timestamp_question` returns a non-`None`
value, that value is exactly the 2-element structure
`[lecture_number, (start_seconds, end_seconds)]` in which `lecture_number`
is the integer first element of the evaluated list and the two times are
integers obtained by coercing the model's numeric pair to integers; any
evaluated value not of this shape is rejected (yields `None`).  No
positivity or non-negativity is checked. -/
theorem parse_result_shape (question : String) (model : String → ModelCall)
    (evalFn : String → Except Unit PyVal) :
    (∀ ti, parse_timestamp_question question model evalFn = some ti →
      ∃ text x y, model question = .ok text ∧
        evalFn (pyStrip text) =
          .ok (.pyList [.pyInt ti.lecture_number, .pyTuple [x, y]]) ∧
        isNumericVal x = true ∧ isNumericVal y = true ∧
        ti.start_time = forceInt x ∧ ti.end_time = forceInt y) ∧
    (∀ v, validShape v = false → validateResult v = none) := by
  refine ⟨fun ti h => ?_, validShape_false_validate⟩
  unfold parse_timestamp_question at h
  cases hm : model question with
  | err => rw [hm] at h; cases h
  | ok text =>
      rw [hm] at h
      simp only at h
      by_cases hn : pyLower (pyStrip text) = "none"
      · rw [if_pos hn] at h; cases h
      · rw [if_neg hn] at h
        cases he : evalFn (pyStrip text) with
        | error u => rw [he] at h; cases h
        | ok v =>
            rw [he] at h
            obtain ⟨x, y, hv, hx, hy, hs, hd⟩ := validate_eq_some v ti h
            exact ⟨text, x, y, rfl, hv ▸ he, hx, hy, hs, hd⟩

/-- C5 amended witness: a valid response text yields exactly the coerced
structure. -/
theorem parse_result_shape_witness :
    ∃ text x y,
      (fun (_ : String) => ModelCall.ok "[4, (0, 300)]") "q" = .ok text ∧
      (fun t => if t = "[4, (0, 300)]" then
          Except.ok (PyVal.pyList [.pyInt 4, .pyTuple [.pyInt 0, .pyInt 300]])
        else Except.error ()) (pyStrip text) =
        .ok (.pyList [.pyInt (TimestampIntent.mk 4 0 300).lecture_number,
          .pyTuple [x, y]]) ∧
      isNumericVal x = true ∧ isNumericVal y = true ∧
      (TimestampIntent.mk 4 0 300).start_time = forceInt x ∧
      (TimestampIntent.mk 4 0 300).end_time = forceInt y :=
  (parse_result_shape "q" (fun _ => .ok "[4, (0, 300)]")
      (fun t => if t = "[4, (0, 300)]" then
          .ok (.pyList [.pyInt 4, .pyTuple [.pyInt 0, .pyInt 300]])
        else .error ())).1 ⟨4, 0, 300⟩ (by decide)

/-- C4 counterexample: the claim as stated is false — a transport/network
error during the search request escapes `process_query` uncaught (the
`requests.post` call is outside every `try`), and a completion-service
failure escapes `get_response_from_model` uncaught. -/
theorem uncaught_exceptions :
    (process_query "c" "q" (fun _ => .err) (fun _ => .error ()) (.ok [])
        .transportError).2 = .error () ∧
    (get_response_from_model [] "d" "q" .svcError).2 = .error () :=
  ⟨rfl, rfl⟩

/-- C4 amended: `CorpusNotFound`, `CorpusMalformed` and a non-200 search
response are each converted into the clearly failed result (`None`), and no
exception escapes on those paths; but a transport/network error during the
search request escapes `process_query`, and a `CompletionServiceFailure`
during composition escapes `get_response_from_model`, as uncaught
exceptions. -/
theorem error_conversion (compiled_input current_question : String)
    (model : String → ModelCall) (evalFn : String → Except Unit PyVal)
    (search : SearchOutcome) :
    (∀ ti corpus, parse_timestamp_question current_question model evalFn = some ti →
      (corpus = CorpusOutcome.notFound ∨ corpus = CorpusOutcome.malformed) →
      (process_query compiled_input current_question model evalFn corpus search).2
        = .ok .failure) ∧
    (∀ status body corpus,
      parse_timestamp_question current_question model evalFn = none →
      search = .response status body → status ≠ 200 →
      (process_query compiled_input current_question model evalFn corpus search).2
        = .ok .failure) ∧
    (∀ corpus, parse_timestamp_question current_question model evalFn = none →
      search = .transportError →
      (process_query compiled_input current_question model evalFn corpus search).2
        = .error ()) ∧
    (∀ (history : List Turn) (data : String),
      (get_response_from_model history data current_question .svcError).2
        = .error ()) := by
  refine ⟨fun ti corpus hp hc => ?_, fun status body corpus hp hs hne => ?_,
    fun corpus hp hs => ?_, fun history data => rfl⟩
  · rcases hc with hc | hc <;> simp [process_query, hp, hc, transcript_filter]
  · simp [process_query, hp, hs, hne]
  · simp [process_query, hp, hs]

/-- C4 amended witness: both corpus error kinds and a non-200 response are
converted to the failed value at concrete inputs. -/
theorem error_conversion_witness :
    (process_query "c" "q" (fun _ => .ok "[4, (0, 300)]")
        (fun t => if t = "[4, (0, 300)]" then
            .ok (.pyList [.pyInt 4, .pyTuple [.pyInt 0, .pyInt 300]])
          else .error ())
        .notFound .transportError).2 = .ok .failure ∧
    (process_query "c" "q" (fun _ => .err) (fun _ => .error ())
        (.ok []) (.response 500 ⟨"p", true⟩)).2 = .ok .failure ∧
    (process_query "c" "q" (fun _ => .err) (fun _ => .error ())
        (.ok []) .transportError).2 = .error () :=
  ⟨(error_conversion "c" "q" (fun _ => .ok "[4, (0, 300)]")
      (fun t => if t = "[4, (0, 300)]" then
          .ok (.pyList [.pyInt 4, .pyTuple [.pyInt 0, .pyInt 300]])
        else .error ())
      .transportError).1 ⟨4, 0, 300⟩ .notFound (by decide) (Or.inl rfl),
   (error_conversion "c" "q" (fun _ => .err) (fun _ => .error ())
      (.response 500 ⟨"p", true⟩)).2.1 500 ⟨"p", true⟩ (.ok []) rfl rfl
      (by decide),
   (error_conversion "c" "q" (fun _ => .err) (fun _ => .error ())
      .transportError).2.2.1 (.ok []) rfl rfl⟩

/-- C6: for a question with no timestamp intent, `process_query` issues
exactly one POST request, whose body is
`{query: [compiled_input], rerank: true, num_blocks_to_rerank: 10,
num_blocks: 3}`; on status 200 it returns the response payload verbatim,
and on any other status it returns the failed value, with no retries
(still exactly one request). -/
theorem semantic_search_request (compiled_input current_question : String)
    (model : String → ModelCall) (evalFn : String → Except Unit PyVal)
    (corpus : CorpusOutcome) (search : SearchOutcome)
    (h : parse_timestamp_question current_question model evalFn = none) :
    (process_query compiled_input current_question model evalFn corpus search).1.searchCalls
      = [⟨[compiled_input], true, 10, 3⟩] ∧
    (∀ body, search = .response 200 body →
      (process_query compiled_input current_question model evalFn corpus search).2
        = .ok (.payload body)) ∧
    (∀ status body, search = .response status body → status ≠ 200 →
      (process_query compiled_input current_question model evalFn corpus search).2
        = .ok .failure) := by
  refine ⟨?_, fun body hs => ?_, fun status body hs hne => ?_⟩
  · simp only [process_query, h]
    cases search with
    | transportError => rfl
    | response status body => by_cases hs : status = 200 <;> simp [hs]
  · simp [process_query, h, hs]
  · simp [process_query, h, hs, hne]

/-- C6 witness: a concrete no-intent query issues the fixed request and
passes a 200 payload through verbatim. -/
theorem semantic_search_request_witness :
    (process_query "hist q" "q" (fun _ => .err) (fun _ => .error ()) (.ok [])
        (.response 200 ⟨"payload", true⟩)).1.searchCalls
      = [⟨["hist q"], true, 10, 3⟩] ∧
    (process_query "hist q" "q" (fun _ => .err) (fun _ => .error ()) (.ok [])
        (.response 200 ⟨"payload", true⟩)).2 = .ok (.payload ⟨"payload", true⟩) :=
  ⟨(semantic_search_request "hist q" "q" (fun _ => .err) (fun _ => .error ())
      (.ok []) (.response 200 ⟨"payload", true⟩) rfl).1,
   (semantic_search_request "hist q" "q" (fun _ => .err) (fun _ => .error ())
      (.ok []) (.response 200 ⟨"payload", true⟩) rfl).2.1 ⟨"payload", true⟩ rfl⟩

/-- C7: the Answer Composer builds exactly one fixed system message, then
for each prior turn in history order a user message with that turn's
question followed by an assistant message with that turn's response, then
one final user message `"Using {retrieved}, please explain {question}"`;
and the streamed answer is the in-order concatenation of the fragments,
each absent fragment contributing the empty string, with no separators —
in particular `["Recur", "sion is", " ..."]` composes to
`"Recursion is ..."`. -/
theorem composer_messages_and_concat (history : List Turn)
    (data current_question : String) (cs : List (Option String)) :
    get_response_from_model history data current_question (.chunks cs)
      = (⟨"system", professorInstruction⟩ ::
          (turnMsgs history ++
            [⟨"user", "Using " ++ data ++ ", please explain " ++ current_question⟩]),
         .ok (concatChunks cs)) ∧
    (get_response_from_model [] "d" "q"
        (.chunks [some "Recur", some "sion is", some " ..."])).2
      = .ok "Recursion is ..." := by
  constructor
  · unfold get_response_from_model
    simp only [foldl_turnMsgs, foldl_concatChunks]
    simp [String.empty_append]
  · rfl

theorem handle_main_path (st : SessionState) (proceedNo : Bool)
    (model : String → ModelCall) (evalFn : String → Except Unit PyVal)
    (corpus : CorpusOutcome) (search : SearchOutcome)
    (render : PQResult → String) (stream : StreamOutcome)
    (h0 : st.user_input ≠ "")
    (h1 : (is_homework_related st.user_input && proceedNo) = false) :
    handle_user_input st proceedNo model evalFn corpus search render stream
      = match (process_query (compiledInput st.history st.user_input)
            st.user_input model evalFn corpus search).2 with
        | .error _ => (st, .raised)
        | .ok data =>
            if pqTruthy data then
              match (get_response_from_model st.history (render data)
                  st.user_input stream).2 with
              | .error _ => (st, .raised)
              | .ok response =>
                  (⟨st.history ++ [⟨st.user_input, response⟩], ""⟩, .appendedTurn)
            else ({ st with user_input := "" }, .failureReported) := by
  simp only [handle_user_input, h0, h1]
  simp

/-- C8: for every user question, when retrieval produces no usable result
(the returned value is the failed value or an empty/falsy one), the
conversation history is left unchanged for that turn and the generic
failure is reported; when an exception escapes retrieval the history is
also unchanged; and a turn `{question, response}` is appended only when the
whole pipeline — retrieval returning a truthy result and composition
returning a response — completed successfully, in which case exactly that
one turn is appended. -/
theorem history_append_discipline (st : SessionState) (proceedNo : Bool)
    (model : String → ModelCall) (evalFn : String → Except Unit PyVal)
    (corpus : CorpusOutcome) (search : SearchOutcome)
    (render : PQResult → String) (stream : StreamOutcome) :
    (∀ data, st.user_input ≠ "" →
      (is_homework_related st.user_input && proceedNo) = false →
      (process_query (compiledInput st.history st.user_input) st.user_input
          model evalFn corpus search).2 = .ok data →
      pqTruthy data = false →
      handle_user_input st proceedNo model evalFn corpus search render stream
        = ({ st with user_input := "" }, .failureReported)) ∧
    (∀ u : Unit, st.user_input ≠ "" →
      (is_homework_related st.user_input && proceedNo) = false →
      (process_query (compiledInput st.history st.user_input) st.user_input
          model evalFn corpus search).2 = .error u →
      handle_user_input st proceedNo model evalFn corpus search render stream
        = (st, .raised)) ∧
    ((handle_user_input st proceedNo model evalFn corpus search render stream).1.history
        ≠ st.history →
      ∃ data response,
        (process_query (compiledInput st.history st.user_input) st.user_input
            model evalFn corpus search).2 = .ok data ∧
        pqTruthy data = true ∧
        (get_response_from_model st.history (render data) st.user_input stream).2
          = .ok response ∧
        (handle_user_input st proceedNo model evalFn corpus search render stream).1.history
          = st.history ++ [⟨st.user_input, response⟩] ∧
        (handle_user_input st proceedNo model evalFn corpus search render stream).2
          = .appendedTurn) := by
  refine ⟨fun data h0 h1 hpq ht => ?_, fun u h0 h1 hpq => ?_, fun hne => ?_⟩
  · rw [handle_main_path st proceedNo model evalFn corpus search render stream h0 h1,
      hpq]
    simp [ht]
  · rw [handle_main_path st proceedNo model evalFn corpus search render stream h0 h1,
      hpq]
  · by_cases h0 : st.user_input = ""
    · exact absurd (by simp [handle_user_input, h0]) hne
    · by_cases h1 : (is_homework_related st.user_input && proceedNo) = true
      · exact absurd (by simp [handle_user_input, h0, h1]) hne
      · rw [handle_main_path st proceedNo model evalFn corpus search render stream h0
            (by simpa using h1)] at hne ⊢
        cases hpq : (process_query (compiledInput st.history st.user_input)
            st.user_input model evalFn corpus search).2 with
        | error u => rw [hpq] at hne; simp at hne
        | ok data =>
            rw [hpq] at hne
            by_cases ht : pqTruthy data = true
            · cases hg : (get_response_from_model st.history (render data)
                  st.user_input stream).2 with
              | error u => simp [ht, hg] at hne
              | ok response =>
                  refine ⟨data, response, rfl, ht, hg, ?_, ?_⟩ <;> simp [ht, hg]
            · simp [ht] at hne

/-- C8 witness: at a concrete failed retrieval the state keeps its history
and reports the generic failure. -/
theorem history_append_discipline_witness :
    handle_user_input ⟨[⟨"a", "b"⟩], "hi"⟩ false (fun _ => .err)
      (fun _ => .error ()) (.ok []) (.response 500 ⟨"p", true⟩)
      (fun _ => "r") (.chunks [])
      = (⟨[⟨"a", "b"⟩], ""⟩, .failureReported) :=
  (history_append_discipline ⟨[⟨"a", "b"⟩], "hi"⟩ false (fun _ => .err)
      (fun _ => .error ()) (.ok []) (.response 500 ⟨"p", true⟩)
      (fun _ => "r") (.chunks [])).1 .failure (by decide) (by decide)
      rfl (by decide)

end Chatbot
